import Mathlib

/-!
Shallow embedding of the asynchronous job orchestration layer of the
ai-generation-studio-ui repository: the job lifecycle (JobService), the
webhook receiver (WebhookService), credit accounting and session-scoped
rate limiting, together with theorems about the behaviour of these
operations.

The database (users, sessions, jobs tables) is modelled as finite maps
from primary keys to records; each drizzle select / update / insert /
transaction of the source is translated into an explicit functional
update.  Wall-clock time (JavaScript Date.now(), millisecond precision)
is passed explicitly as a natural number.  Asynchronous interleavings
are modelled by explicit interference functions applied at the await
boundaries of the source.
-/

namespace Studio

/-- The fixed tool enumeration (shared/schema `toolSchema`). -/
inductive Tool where
  | text2image
  | text2mesh
  | texturing
  | img2video
deriving DecidableEq

/-- Source name of each tool, as used in thrown error messages. -/
def Tool.name : Tool → String
  | .text2image => "text2image"
  | .text2mesh => "text2mesh"
  | .texturing => "texturing"
  | .img2video => "img2video"

/-- Fixed credit cost per tool (client/src/components/studio-tabs.tsx
`toolCosts`: text2image 1, text2mesh 5, texturing 3, img2video 4). -/
def toolCosts : Tool → Int
  | .text2image => 1
  | .text2mesh => 5
  | .texturing => 3
  | .img2video => 4

/-- The fixed heavy subset used by JobService.checkRateLimit and
JobService.createJob (`const heavyJobs: Tool[] = ["text2mesh", "texturing",
"img2video"]`). -/
def heavyJobs : List Tool := [.text2mesh, .texturing, .img2video]

/-- Job status enumeration (shared schema / provider types). -/
inductive JobStatus where
  | queued
  | processing
  | completed
  | failed
deriving DecidableEq

/-- Opaque structured metadata (`meta` columns, `Record<string, any>`):
either an error object `\x7b error \x7d` written by the failure transitions,
or an opaque externally supplied payload. -/
inductive MetaVal where
  | errObj (msg : String)
  | payload (kv : List (String × String))
deriving DecidableEq

/-- A row of the users table. -/
structure UserRec where
  id : String
  username : String
  password : String
  credits : Int
deriving DecidableEq

/-- A row of the sessions table (rate-limit counters). -/
structure SessionRec where
  id : String
  userId : String
  heavyJobsThisHour : Nat
  lastHeavyJobAt : Option Nat
deriving DecidableEq

/-- A row of the jobs table. -/
structure JobRec where
  id : String
  tool : Tool
  prompt : String
  inputs : Option (List (String × String))
  status : JobStatus
  assetUrls : Option (List String)
  provider : String
  providerJobId : Option String
  meta : Option MetaVal
  userId : String
  sessionId : String
  creditsUsed : Int
  createdAt : Nat
  updatedAt : Nat
deriving DecidableEq

/-- A provider job result (providers/types `ProviderJob.result`). -/
structure PResult where
  assetUrls : List String
  meta : Option MetaVal
deriving DecidableEq

/-- A provider job handle (providers/types `ProviderJob`). -/
structure ProviderJobRec where
  id : String
  status : JobStatus
  result : Option PResult
  error : Option String
deriving DecidableEq

/-- The relational store: the three tables, each keyed by primary id. -/
structure DB where
  users : String → Option UserRec
  sessions : String → Option SessionRec
  jobs : String → Option JobRec

/-- Functional update of one existing row of a table (drizzle
`update ... set ... where eq(id, k)`). -/
def updMap {α : Type} (m : String → Option α) (k : String) (f : α → α) :
    String → Option α :=
  fun k2 => if k2 = k then (m k).map f else m k2

/-- Insert (or overwrite) one row of a table (drizzle `insert ... values`). -/
def setMap {α : Type} (m : String → Option α) (k : String) (v : α) :
    String → Option α :=
  fun k2 => if k2 = k then some v else m k2

/-- JavaScript `s || default` on an optional string: the empty string is
falsy, so it also falls back to the default. -/
def orFalsy (s : Option String) (d : String) : String :=
  match s with
  | none => d
  | some s => if s = "" then d else s

/-- One hour in milliseconds (`60 * 60 * 1000`). -/
def oneHourMs : Int := 3600000

end Studio

namespace Studio.JobService

open Studio

/-- JobService.checkCredits: read-only check that the user exists and has
at least the tool's cost. -/
def checkCredits (db : DB) (userId : String) (tool : Tool) : Bool :=
  match db.users userId with
  | some u => decide (toolCosts tool ≤ u.credits)
  | none => false

/-- The counter reset written by the stale branch of
JobService.checkRateLimit: zero the counter and stamp now. -/
def resetCounter (now : Nat) : SessionRec → SessionRec := fun s =>
  { s with heavyJobsThisHour := 0, lastHeavyJobAt := some now }

/-- The per-user credit deduction written by the first transaction of
JobService.createJob. -/
def deductBy (cost : Int) : UserRec → UserRec := fun v =>
  { v with credits := v.credits - cost }

/-- The heavy-counter increment written by the second transaction of
JobService.createJob, guarded by the (userId, sessionId) where clause. -/
def bumpSession (userId : String) (now : Nat) : SessionRec → SessionRec :=
  fun s =>
    if s.userId = userId then
      { s with heavyJobsThisHour := s.heavyJobsThisHour + 1,
               lastHeavyJobAt := some now }
    else s

/-- The session select of JobService.checkRateLimit:
`where and(eq(sessions.userId, userId), eq(sessions.id, sessionId))`. -/
def sessionLookup (db : DB) (userId sessionId : String) : Option SessionRec :=
  match db.sessions sessionId with
  | some s => if s.userId = userId then some s else none
  | none => none

/-- The get-or-create step of JobService.checkRateLimit: select the
session by (userId, sessionId), inserting a fresh row with a zero counter
when absent. -/
def getOrCreateSession (db : DB) (userId sessionId : String) :
    DB × SessionRec :=
  match sessionLookup db userId sessionId with
  | some s => (db, s)
  | none =>
      let s : SessionRec :=
        { id := sessionId, userId := userId, heavyJobsThisHour := 0,
          lastHeavyJobAt := none }
      ({ db with sessions := setMap db.sessions sessionId s }, s)

/-- The staleness test of JobService.checkRateLimit:
`!session.lastHeavyJobAt || session.lastHeavyJobAt < oneHourAgo`. -/
def staleStamp (session : SessionRec) (oneHourAgo : Int) : Bool :=
  match session.lastHeavyJobAt with
  | none => true
  | some t => decide ((t : Int) < oneHourAgo)

/-- JobService.checkRateLimit.  For a heavy tool: look the session up by
(userId, sessionId), creating it with a zero counter when absent; when the
last heavy-job timestamp is absent or more than one hour old, reset the
counter to 0 and stamp `lastHeavyJobAt := now` (an update keyed by session
id only) and allow; otherwise allow iff the counter is below 5.  Returns
the possibly mutated store together with the decision. -/
def checkRateLimit (db : DB) (now : Nat) (userId sessionId : String)
    (tool : Tool) : DB × Bool :=
  if tool ∉ heavyJobs then (db, true)
  else
    let oneHourAgo : Int := (now : Int) - oneHourMs
    let got := getOrCreateSession db userId sessionId
    let db1 := got.1
    let session := got.2
    if staleStamp session oneHourAgo then
      ({ db1 with sessions := updMap db1.sessions sessionId (resetCounter now) }, true)
    else
      (db1, decide (session.heavyJobsThisHour < 5))

/-- The first transaction of JobService.createJob: re-read the user and
deduct the cost, throwing "Insufficient credits" (with no committed write)
when the user is absent or the balance is below the cost. -/
def deductCreditsTxn (db : DB) (userId : String) (cost : Int) :
    DB × Option String :=
  match db.users userId with
  | none => (db, some "Insufficient credits")
  | some u =>
      if u.credits < cost then (db, some "Insufficient credits")
      else
        ({ db with users := updMap db.users userId (deductBy cost) }, none)

/-- A job creation request (JobService.CreateJobRequest). -/
structure CreateJobRequest where
  tool : Tool
  prompt : String
  inputs : Option (List (String × String))
  userId : String
  sessionId : String

/-- The job row JobService.createJob inserts: status queued, no assets,
`creditsUsed := cost` (the cost snapshot).  `providerOf` models the
environment-configured provider name per tool
(JobService.getProviderName). -/
def newJobRec (providerOf : Tool → String) (now : Nat) (jobId : String)
    (request : CreateJobRequest) (cost : Int) : JobRec :=
  { id := jobId, tool := request.tool, prompt := request.prompt,
    inputs := request.inputs, status := .queued, assetUrls := none,
    provider := providerOf request.tool, providerJobId := none,
    meta := none, userId := request.userId, sessionId := request.sessionId,
    creditsUsed := cost, createdAt := now, updatedAt := now }

/-- The second transaction of JobService.createJob: insert the job row
with status queued and `creditsUsed := cost`, and, for a heavy tool,
increment the session's counter and stamp `lastHeavyJobAt := now` (keyed
by (userId, sessionId)). -/
def insertJobTxn (providerOf : Tool → String) (db : DB) (now : Nat)
    (jobId : String) (request : CreateJobRequest) (cost : Int) :
    DB × JobRec :=
  let job : JobRec := newJobRec providerOf now jobId request cost
  let db2 : DB := { db with jobs := setMap db.jobs jobId job }
  let db3 : DB :=
    if request.tool ∈ heavyJobs then
      { db2 with sessions := updMap db2.sessions request.sessionId (bumpSession request.userId now) }
    else db2
  (db3, job)

/-- JobService.createJob, sequential schedule: validate, read-check
credits, check the rate limit, run the deduction transaction, run the
insertion transaction; return the final store together with either the
created job or the thrown error message.  `interfere` is applied to the
store at the await boundary between the rate-limit check and the credit
deduction transaction, modelling writes committed there by concurrently
running tasks; the single-task schedule is `interfere = id`. -/
def createJobWith (providerOf : Tool → String) (interfere : DB → DB)
    (db : DB) (now : Nat) (jobId : String) (request : CreateJobRequest) :
    DB × Except String JobRec :=
  let cost := toolCosts request.tool
  if ¬ checkCredits db request.userId request.tool then
    (db, .error ("Insufficient credits. " ++ request.tool.name ++ " costs "
        ++ toString cost ++ " credits."))
  else
    let rl := checkRateLimit db now request.userId request.sessionId
        request.tool
    if ¬ rl.2 then
      (rl.1, .error "Rate limit exceeded. Maximum 5 heavy jobs per hour.")
    else
      let db1 := interfere rl.1
      match deductCreditsTxn db1 request.userId cost with
      | (dbKept, some e) => (dbKept, .error e)
      | (db2, none) =>
          let ins := insertJobTxn providerOf db2 now jobId request cost
          (ins.1, .ok ins.2)

/-- JobService.createJob under the single-task schedule. -/
def createJob (providerOf : Tool → String) (db : DB) (now : Nat)
    (jobId : String) (request : CreateJobRequest) :
    DB × Except String JobRec :=
  createJobWith providerOf id db now jobId request

/-- The trace of store states at the await boundaries of
JobService.createJob (single-task schedule): the state on entry, after the
rate-limit check, after the credit-deduction transaction commits, and
after the job-insertion transaction commits.  Each element is a state
another task could observe, since each transaction commits separately. -/
def createJobStates (providerOf : Tool → String) (db : DB) (now : Nat)
    (jobId : String) (request : CreateJobRequest) : List DB :=
  let cost := toolCosts request.tool
  if ¬ checkCredits db request.userId request.tool then [db]
  else
    let rl := checkRateLimit db now request.userId request.sessionId
        request.tool
    if ¬ rl.2 then [db, rl.1]
    else
      match deductCreditsTxn rl.1 request.userId cost with
      | (dbKept, some _) => [db, rl.1, dbKept]
      | (db2, none) =>
          let ins := insertJobTxn providerOf db2 now jobId request cost
          [db, rl.1, db2, ins.1]

/-- The HTTP status the POST /api/jobs route maps a thrown message to:
402 when the message contains "Insufficient credits", 429 when it contains
"Rate limit", otherwise 400 (registerRoutes in server/routes). -/
def createJobErrorStatus (message : String) : Nat :=
  if "Insufficient credits".toList <:+: message.toList then 402
  else if "Rate limit".toList <:+: message.toList then 429
  else 400

/-- The first update of JobService.startJob: mark the job processing. -/
def markProcessing (db : DB) (now : Nat) (jobId : String) : DB :=
  let upd : JobRec → JobRec := fun j =>
    { j with status := .processing, updatedAt := now }
  { db with jobs := updMap db.jobs jobId upd }

/-- The second update of JobService.startJob: record the provider job id. -/
def storeProviderJobId (db : DB) (now : Nat) (jobId pjId : String) : DB :=
  let upd : JobRec → JobRec := fun j =>
    { j with providerJobId := some pjId, updatedAt := now }
  { db with jobs := updMap db.jobs jobId upd }

/-- JobService.completeJob: set status completed, `assetUrls :=
providerJob.result?.assetUrls || null`, `meta := providerJob.result?.meta
|| null`.  There is no guard on the current status. -/
def completeJob (db : DB) (now : Nat) (jobId : String)
    (providerJob : ProviderJobRec) : DB :=
  let upd : JobRec → JobRec := fun j =>
    { j with status := .completed,
             assetUrls := providerJob.result.map PResult.assetUrls,
             meta := providerJob.result.bind PResult.meta,
             updatedAt := now }
  { db with jobs := updMap db.jobs jobId upd }

/-- JobService.failJob: read the job; when present, in one transaction add
`job.creditsUsed` back to the owner's balance (when the user row exists)
and set status failed with `meta := \x7b error \x7d`.  There is no guard on the
current status. -/
def failJob (db : DB) (now : Nat) (jobId : String) (error : String) : DB :=
  match db.jobs jobId with
  | none => db
  | some job =>
      let refund : UserRec → UserRec := fun v =>
        { v with credits := v.credits + job.creditsUsed }
      let dbRefunded : DB :=
        match db.users job.userId with
        | some _ => { db with users := updMap db.users job.userId refund }
        | none => db
      let upd : JobRec → JobRec := fun j =>
        { j with status := .failed, meta := some (.errObj error),
                 updatedAt := now }
      { dbRefunded with jobs := updMap dbRefunded.jobs jobId upd }

end Studio.JobService

namespace Studio.WebhookService

open Studio

/-- The webhook payload status union ("completed" | "failed"). -/
inductive WHStatus where
  | completed
  | failed
deriving DecidableEq

/-- A vendor webhook payload (WebhookService.WebhookRequest). -/
structure WebhookRequest where
  jobId : String
  status : WHStatus
  result : Option PResult
  error : Option String

/-- WebhookService.verifySignature: reject an absent or empty header;
otherwise compare, after a length guard, against
`sha256=<hex hmac of the payload under the shared secret>`.
The HMAC-SHA256 primitive of the node crypto library is an external
collaborator and is passed as the function `hmacHex`. -/
def verifySignature (hmacHex : String → String → String) (secret : String)
    (payload : String) (signature : Option String) : Bool :=
  match signature with
  | none => false
  | some s =>
      if s = "" then false
      else
        let expected := "sha256=" ++ hmacHex secret payload
        if s.length ≠ expected.length then false
        else decide (s = expected)

/-- WebhookService.completeJob: set status completed and store the given
asset list and metadata verbatim.  No guard on the current status. -/
def completeJob (db : DB) (now : Nat) (jobId : String)
    (assetUrls : List String) (meta : Option MetaVal) : DB :=
  let upd : JobRec → JobRec := fun j =>
    { j with status := .completed, assetUrls := some assetUrls,
             meta := meta, updatedAt := now }
  { db with jobs := updMap db.jobs jobId upd }

/-- WebhookService.failJob: read the job; when present, in one transaction
refund `job.creditsUsed` to the owner (when the user row exists) and set
status failed with `meta := \x7b error \x7d`.  No guard on the current status. -/
def failJob (db : DB) (now : Nat) (jobId : String) (error : String) : DB :=
  match db.jobs jobId with
  | none => db
  | some job =>
      let refund : UserRec → UserRec := fun v =>
        { v with credits := v.credits + job.creditsUsed }
      let dbRefunded : DB :=
        match db.users job.userId with
        | some _ => { db with users := updMap db.users job.userId refund }
        | none => db
      let upd : JobRec → JobRec := fun j =>
        { j with status := .failed, meta := some (.errObj error),
                 updatedAt := now }
      { dbRefunded with jobs := updMap dbRefunded.jobs jobId upd }

/-- WebhookService.processWebhook: look the job up (an unknown id is a
thrown error); on "completed" with a result, complete the job with the
supplied assets; on "failed", fail it (with refund); on "completed"
without a result, do nothing. -/
def processWebhook (db : DB) (now : Nat) (request : WebhookRequest) :
    Except String DB :=
  match db.jobs request.jobId with
  | none => .error ("Job " ++ request.jobId ++ " not found")
  | some _ =>
      match request.status, request.result with
      | .completed, some r =>
          .ok (completeJob db now request.jobId r.assetUrls r.meta)
      | .completed, none => .ok db
      | .failed, _ =>
          .ok (failJob db now request.jobId
                (orFalsy request.error "Webhook reported failure"))

/-- The POST /api/webhooks/vendor route: verify the signature over the raw
serialized body; on failure respond 401 with no state change; otherwise
process the payload, responding 200 on success and 500 when processing
throws (which happens only before any mutation, for an unknown job id). -/
def webhookRoute (hmacHex : String → String → String) (secret : String)
    (db : DB) (now : Nat) (rawBody : String) (signature : Option String)
    (request : WebhookRequest) : Nat × DB :=
  if ¬ verifySignature hmacHex secret rawBody signature then (401, db)
  else
    match processWebhook db now request with
    | .ok db2 => (200, db2)
    | .error _ => (500, db)

end Studio.WebhookService

namespace Studio.JobService

open Studio

/-- The fixed poll attempt ceiling of JobService.pollJobStatus. -/
def maxAttempts : Nat := 60

/-- One run of the recursive `poll` closure of JobService.pollJobStatus.
`getStatus n` is the provider's answer to the n-th getJobStatus call;
`attempts` is the count of attempts made so far and `fuel` the remaining
budget (`maxAttempts - attempts`), which makes the recursion structural.
Returns the final store and the number of getJobStatus calls made. -/
def pollAux (getStatus : Nat → ProviderJobRec) (now : Nat) (jobId : String) :
    Nat → Nat → DB → DB × Nat
  | 0, _, db => (db, 0)
  | fuel + 1, attempts, db =>
      let attempts2 := attempts + 1
      match db.jobs jobId with
      | none => (db, 0)
      | some _ =>
          let pj := getStatus attempts2
          if pj.status = .completed then
            (completeJob db now jobId pj, 1)
          else if pj.status = .failed then
            (failJob db now jobId (orFalsy pj.error "Provider job failed"), 1)
          else if attempts2 < maxAttempts then
            let r := pollAux getStatus now jobId fuel attempts2 db
            (r.1, r.2 + 1)
          else
            (failJob db now jobId "Job timed out", 1)

/-- JobService.pollJobStatus: up to `maxAttempts` getJobStatus calls at a
fixed 5-second backoff; a terminal provider answer transitions the job,
and exhausting the ceiling fails the job with "Job timed out". -/
def pollJobStatus (getStatus : Nat → ProviderJobRec) (db : DB) (now : Nat)
    (jobId : String) : DB × Nat :=
  pollAux getStatus now jobId maxAttempts 0 db

end Studio.JobService

namespace Studio

open JobService WebhookService

/-! ### Concrete fixtures used by counterexamples and witnesses -/

/-- A demo user row with a given balance. -/
def demoUser (c : Int) : UserRec :=
  { id := "u1", username := "demo", password := "demo", credits := c }

/-- A dispatched (processing) text2mesh job of the demo user, with the
cost snapshot creditsUsed = 5. -/
def procJob : JobRec :=
  { id := "j1", tool := .text2mesh, prompt := "a chair", inputs := none,
    status := .processing, assetUrls := none, provider := "SIM",
    providerJobId := some "pj1", meta := none, userId := "u1",
    sessionId := "s1", creditsUsed := 5, createdAt := 0, updatedAt := 0 }

/-- The same job after a successful completion with one stored asset. -/
def doneJob : JobRec :=
  { procJob with status := .completed, assetUrls := some ["a.glb"] }

/-- A store with the demo user (10 credits) and the processing job. -/
def dbProc : DB :=
  { users := fun k => if k = "u1" then some (demoUser 10) else none,
    sessions := fun _ => none,
    jobs := fun k => if k = "j1" then some procJob else none }

/-- A store with the demo user (10 credits) and the completed job. -/
def dbDone : DB :=
  { users := fun k => if k = "u1" then some (demoUser 10) else none,
    sessions := fun _ => none,
    jobs := fun k => if k = "j1" then some doneJob else none }

/-- A store with only the demo user (balance a parameter), no sessions,
no jobs. -/
def dbFresh (c : Int) : DB :=
  { users := fun k => if k = "u1" then some (demoUser c) else none,
    sessions := fun _ => none,
    jobs := fun _ => none }

/-- A verified-payload record reporting failure for the fixture job. -/
def failedWebhookReq : WebhookRequest :=
  { jobId := "j1", status := .failed, result := none,
    error := some "vendor reported failure" }

/-- A verified-payload record completing the fixture job with an empty
asset list. -/
def emptyAssetsWebhookReq : WebhookRequest :=
  { jobId := "j1", status := .completed,
    result := some { assetUrls := [], meta := none }, error := none }

/-- A verified-payload record completing the fixture job with one asset. -/
def oneAssetWebhookReq : WebhookRequest :=
  { jobId := "j1", status := .completed,
    result := some { assetUrls := ["a.glb"], meta := none }, error := none }

/-- The fixture creation request: heavy tool text2mesh for the demo
user/session. -/
def meshReq : CreateJobRequest :=
  { tool := .text2mesh, prompt := "a chair", inputs := none,
    userId := "u1", sessionId := "s1" }

/-- Interference draining the demo user's balance to zero: models a
concurrent task spending the credits between the rate-limit check and the
deduction transaction.  It writes only the users table. -/
def drainU1 : DB → DB := fun d =>
  let z : UserRec → UserRec := fun v => { v with credits := 0 }
  { d with users := updMap d.users "u1" z }

/-- A provider whose getJobStatus answer is always still processing. -/
def alwaysProcessing : Nat → ProviderJobRec := fun _ =>
  { id := "pj1", status := .processing, result := none, error := none }

/-- A store holding exactly one user (a given id and balance) and nothing
else. -/
def dbSolo (uid : String) (c : Int) : DB :=
  { users := fun k => if k = uid then some ⟨uid, "demo", "demo", c⟩ else none,
    sessions := fun _ => none,
    jobs := fun _ => none }

end Studio

namespace Studio

/-! ### Lookup lemmas for the table maps -/

@[simp] theorem updMap_same {α : Type} (m : String → Option α) (k : String)
    (f : α → α) : updMap m k f k = (m k).map f := by
  simp [updMap]

@[simp] theorem updMap_other {α : Type} (m : String → Option α) (k k2 : String)
    (f : α → α) (h : k2 ≠ k) : updMap m k f k2 = m k2 := by
  simp [updMap, h]

@[simp] theorem setMap_same {α : Type} (m : String → Option α) (k : String)
    (v : α) : setMap m k v k = some v := by
  simp [setMap]

@[simp] theorem setMap_other {α : Type} (m : String → Option α) (k k2 : String)
    (v : α) (h : k2 ≠ k) : setMap m k v k2 = m k2 := by
  simp [setMap, h]

end Studio

namespace Studio

open JobService WebhookService

/-! ### Frame lemmas for the rate-limit check -/

theorem getOrCreateSession_users (db : DB) (userId sessionId : String) :
    (getOrCreateSession db userId sessionId).1.users = db.users := by
  unfold getOrCreateSession
  split <;> rfl

theorem getOrCreateSession_jobs (db : DB) (userId sessionId : String) :
    (getOrCreateSession db userId sessionId).1.jobs = db.jobs := by
  unfold getOrCreateSession
  split <;> rfl

theorem checkRateLimit_users (db : DB) (now : Nat) (userId sessionId : String)
    (tool : Tool) :
    (checkRateLimit db now userId sessionId tool).1.users = db.users := by
  unfold checkRateLimit
  split
  · rfl
  · dsimp only
    split
    · exact getOrCreateSession_users db userId sessionId
    · exact getOrCreateSession_users db userId sessionId

theorem checkRateLimit_jobs (db : DB) (now : Nat) (userId sessionId : String)
    (tool : Tool) :
    (checkRateLimit db now userId sessionId tool).1.jobs = db.jobs := by
  unfold checkRateLimit
  split
  · rfl
  · dsimp only
    split
    · exact getOrCreateSession_jobs db userId sessionId
    · exact getOrCreateSession_jobs db userId sessionId

/-- C1.  The failure transition carries no guard on the current status:
invoking it twice for the same job (here once by the poller's timeout
path, once by a webhook reporting failure) refunds `creditsUsed` TWICE.
Starting from a processing text2mesh job (creditsUsed 5) of a user with
10 credits, the first invocation leaves the balance at 15 and the job
failed, and the second invocation raises the balance to 20 instead of
observing the terminal status and performing no further refund. -/
theorem failJob_double_refund :
    ((((JobService.failJob dbProc 1 "j1" "Job timed out").users "u1").map
        UserRec.credits = some 15) ∧
      (((JobService.failJob dbProc 1 "j1" "Job timed out").jobs "j1").map
        JobRec.status = some .failed)) ∧
    ((((WebhookService.failJob (JobService.failJob dbProc 1 "j1" "Job timed out")
          2 "j1" "Webhook reported failure").users "u1").map
        UserRec.credits = some 20) ∧
      (((WebhookService.failJob (JobService.failJob dbProc 1 "j1" "Job timed out")
          2 "j1" "Webhook reported failure").jobs "j1").map
        JobRec.status = some .failed)) := by
  decide

/-- C2.  A verified webhook reporting failure for an ALREADY-COMPLETED job
is not a no-op: WebhookService.processWebhook carries no terminal-status
guard, so it moves the job out of the terminal completed state back to
failed, overwrites its meta with the error object, and refunds its
creditsUsed (10 → 15) — contradicting both "no transition out of a
terminal state" and "a webhook for an already-terminal job leaves the job
unchanged". -/
theorem webhook_mutates_terminal_job :
    (WebhookService.processWebhook dbDone 3 failedWebhookReq).toOption.map
        (fun d => ((d.jobs "j1").map JobRec.status,
                   (d.users "u1").map UserRec.credits,
                   (d.jobs "j1").map JobRec.meta))
      = some (some .failed, some 15,
              some (some (.errObj "vendor reported failure"))) := by
  decide

/-- C3.  A POST /api/webhooks/vendor request whose x-signature header is
missing, or whose value differs from "sha256=" followed by the hex HMAC
of the raw payload under the shared secret, is answered 401 with the
store returned exactly as it was: no job record or credit balance
changes. -/
theorem webhookRoute_rejects_bad_signature
    (hmacHex : String → String → String) (secret : String) (db : DB)
    (now : Nat) (rawBody : String) (signature : Option String)
    (request : WebhookService.WebhookRequest)
    (hbad : ∀ s, signature = some s → s ≠ "sha256=" ++ hmacHex secret rawBody) :
    WebhookService.webhookRoute hmacHex secret db now rawBody signature
      request = (401, db) := by
  have hv : WebhookService.verifySignature hmacHex secret rawBody signature
      = false := by
    unfold WebhookService.verifySignature
    match signature with
    | none => rfl
    | some s =>
        have hne := hbad s rfl
        by_cases h0 : s = ""
        · simp [h0]
        · simp [h0, hne]
  unfold WebhookService.webhookRoute
  simp [hv]

/-- Witness for C3: a concrete HMAC function, secret, store and mismatched
header value, rejected with 401 and the store unchanged. -/
theorem webhookRoute_rejects_bad_signature_witness :
    WebhookService.webhookRoute (fun _ _ => "00") "sec" dbProc 7 "rawbody"
      (some "sha256=ff") failedWebhookReq = (401, dbProc) :=
  webhookRoute_rejects_bad_signature (fun _ _ => "00") "sec" dbProc 7
    "rawbody" (some "sha256=ff") failedWebhookReq
    (by intro s hs; cases hs; decide)

/-- C6 counterexample.  "assetUrls is non-empty iff status == completed"
fails on the code: a verified completed webhook whose result carries an
EMPTY asset list is stored verbatim by WebhookService.completeJob, giving
a reachable job that is completed with assetUrls = [] (and no error on
delivery). -/
theorem completed_job_with_empty_assets :
    (WebhookService.processWebhook dbProc 5 emptyAssetsWebhookReq).toOption.map
        (fun d => (d.jobs "j1").map (fun j => (j.status, j.assetUrls)))
      = some (some (.completed, some [])) := by
  decide

end Studio

namespace Studio

open JobService WebhookService

/-- C8.  Delivering the same verified "completed" webhook twice for one
job id is idempotent: the first delivery completes the job with the
supplied asset list; the second delivery is accepted without error and
rewrites the same status, asset list and metadata, so the stored record
after the second delivery equals the record after the first except for
the bookkeeping `updatedAt` stamp (and equals it exactly when the two
deliveries carry the same clock), with every other row untouched. -/
theorem processWebhook_completed_idempotent (db : DB) (now1 now2 : Nat)
    (request : WebhookService.WebhookRequest) (r : PResult) (j : JobRec)
    (hst : request.status = .completed) (hres : request.result = some r)
    (hj : db.jobs request.jobId = some j) :
    WebhookService.processWebhook db now1 request =
      .ok (WebhookService.completeJob db now1 request.jobId r.assetUrls
            r.meta) ∧
    WebhookService.processWebhook
        (WebhookService.completeJob db now1 request.jobId r.assetUrls r.meta)
        now2 request =
      .ok (WebhookService.completeJob
            (WebhookService.completeJob db now1 request.jobId r.assetUrls
              r.meta) now2 request.jobId r.assetUrls r.meta) ∧
    (let db1 := WebhookService.completeJob db now1 request.jobId r.assetUrls
        r.meta
     let db2 := WebhookService.completeJob db1 now2 request.jobId r.assetUrls
        r.meta
     db2.users = db1.users ∧ db2.sessions = db1.sessions ∧
     (∀ k, k ≠ request.jobId → db2.jobs k = db1.jobs k) ∧
     (db1.jobs request.jobId).map (fun j2 => (j2.status, j2.assetUrls, j2.meta))
        = some (.completed, some r.assetUrls, r.meta) ∧
     (db2.jobs request.jobId).map (fun j2 => (j2.status, j2.assetUrls, j2.meta))
        = some (.completed, some r.assetUrls, r.meta) ∧
     db2.jobs request.jobId =
        (db1.jobs request.jobId).map (fun j2 => { j2 with updatedAt := now2 })) := by
  refine ⟨?_, ?_, ?_, ?_, ?_, ?_, ?_, ?_⟩
  · unfold WebhookService.processWebhook
    rw [hj, hst, hres]
  · unfold WebhookService.processWebhook
    rw [hst, hres]
    unfold WebhookService.completeJob
    dsimp only
    rw [updMap_same, hj]
    simp
  · rfl
  · rfl
  · intro k hk
    unfold WebhookService.completeJob
    dsimp only
    rw [updMap_other _ _ _ _ hk, updMap_other _ _ _ _ hk]
  · unfold WebhookService.completeJob
    dsimp only
    rw [updMap_same, hj]
    rfl
  · unfold WebhookService.completeJob
    dsimp only
    rw [updMap_same, updMap_same, hj]
    rfl
  · unfold WebhookService.completeJob
    dsimp only
    rw [updMap_same, updMap_same, hj]
    rfl

/-- Witness for C8: the idempotence theorem applied to the fixture store,
its processing job and a concrete one-asset completed payload. -/
theorem processWebhook_completed_idempotent_witness :
    WebhookService.processWebhook dbProc 4 oneAssetWebhookReq =
      .ok (WebhookService.completeJob dbProc 4 "j1" ["a.glb"] none) ∧
    WebhookService.processWebhook
        (WebhookService.completeJob dbProc 4 "j1" ["a.glb"] none) 9
        oneAssetWebhookReq =
      .ok (WebhookService.completeJob
            (WebhookService.completeJob dbProc 4 "j1" ["a.glb"] none) 9 "j1"
            ["a.glb"] none) ∧
    (let db1 := WebhookService.completeJob dbProc 4 "j1" ["a.glb"] none
     let db2 := WebhookService.completeJob db1 9 "j1" ["a.glb"] none
     db2.users = db1.users ∧ db2.sessions = db1.sessions ∧
     (∀ k, k ≠ "j1" → db2.jobs k = db1.jobs k) ∧
     (db1.jobs "j1").map (fun j2 => (j2.status, j2.assetUrls, j2.meta))
        = some (.completed, some ["a.glb"], none) ∧
     (db2.jobs "j1").map (fun j2 => (j2.status, j2.assetUrls, j2.meta))
        = some (.completed, some ["a.glb"], none) ∧
     db2.jobs "j1" =
        (db1.jobs "j1").map (fun j2 => { j2 with updatedAt := 9 })) :=
  processWebhook_completed_idempotent dbProc 4 9 oneAssetWebhookReq
    { assetUrls := ["a.glb"], meta := none } procJob rfl rfl (by decide)

end Studio

namespace Studio

open JobService WebhookService

/-- C6 amended.  Queued jobs are created with no asset URLs; marking a job
processing and recording the provider job id never touch assetUrls;
assetUrls is written only by the two completion transitions, which set
status completed and store exactly the supplied asset list (which the code
does not require to be non-empty, and which is absent when the provider
result is absent); both failure transitions set status failed and leave
any previously stored assetUrls in place. -/
theorem assetUrls_written_only_by_completion
    (providerOf : Tool → String) (interfere : DB → DB) (dbc : DB)
    (nowc : Nat) (jid : String) (req : CreateJobRequest) (re : JobRec)
    (db : DB) (now : Nat) (jobId pjId err : String) (pj : ProviderJobRec)
    (urls : List String) (meta : Option MetaVal) (j : JobRec)
    (hcreate : (createJobWith providerOf interfere dbc nowc jid req).2 = .ok re)
    (hj : db.jobs jobId = some j) :
    (re.status = .queued ∧ re.assetUrls = none) ∧
    (markProcessing db now jobId).jobs jobId =
      some { j with status := .processing, updatedAt := now } ∧
    (storeProviderJobId db now jobId pjId).jobs jobId =
      some { j with providerJobId := some pjId, updatedAt := now } ∧
    (JobService.completeJob db now jobId pj).jobs jobId =
      some { j with status := .completed,
                    assetUrls := pj.result.map PResult.assetUrls,
                    meta := pj.result.bind PResult.meta, updatedAt := now } ∧
    (WebhookService.completeJob db now jobId urls meta).jobs jobId =
      some { j with status := .completed, assetUrls := some urls,
                    meta := meta, updatedAt := now } ∧
    ((JobService.failJob db now jobId err).jobs jobId).map
        (fun j2 => (j2.status, j2.assetUrls)) = some (.failed, j.assetUrls) ∧
    ((WebhookService.failJob db now jobId err).jobs jobId).map
        (fun j2 => (j2.status, j2.assetUrls)) = some (.failed, j.assetUrls) := by
  refine ⟨?_, ?_, ?_, ?_, ?_, ?_, ?_⟩
  · unfold createJobWith at hcreate
    split at hcreate
    · simp at hcreate
    · dsimp only at hcreate
      split at hcreate
      · simp at hcreate
      · split at hcreate
        · simp at hcreate
        · dsimp only at hcreate
          rw [Except.ok.injEq] at hcreate
          subst hcreate
          simp [insertJobTxn, newJobRec]
  · unfold markProcessing
    dsimp only
    rw [updMap_same, hj]
    rfl
  · unfold storeProviderJobId
    dsimp only
    rw [updMap_same, hj]
    rfl
  · unfold JobService.completeJob
    dsimp only
    rw [updMap_same, hj]
    rfl
  · unfold WebhookService.completeJob
    dsimp only
    rw [updMap_same, hj]
    rfl
  · unfold JobService.failJob
    rw [hj]
    dsimp only
    split
    · rw [updMap_same, hj]
      rfl
    · rw [updMap_same, hj]
      rfl
  · unfold WebhookService.failJob
    rw [hj]
    dsimp only
    split
    · rw [updMap_same, hj]
      rfl
    · rw [updMap_same, hj]
      rfl

/-- Witness for the C6 amended theorem: a concrete successful creation
(yielding a queued job with no assets) and the transition updates applied
to the fixture processing job. -/
theorem assetUrls_written_only_by_completion_witness :
    (((newJobRec (fun _ => "SIM") 3 "jb" meshReq 5).status = .queued ∧
      (newJobRec (fun _ => "SIM") 3 "jb" meshReq 5).assetUrls = none) ∧
     (markProcessing dbProc 6 "j1").jobs "j1" =
       some { procJob with status := .processing, updatedAt := 6 } ∧
     (storeProviderJobId dbProc 6 "j1" "pp").jobs "j1" =
       some { procJob with providerJobId := some "pp", updatedAt := 6 } ∧
     (JobService.completeJob dbProc 6 "j1"
         { id := "pj1", status := .completed,
           result := some { assetUrls := ["x.glb"], meta := none },
           error := none }).jobs "j1" =
       some { procJob with status := .completed,
                           assetUrls := some ["x.glb"], meta := none,
                           updatedAt := 6 } ∧
     (WebhookService.completeJob dbProc 6 "j1" ["y.glb"] none).jobs "j1" =
       some { procJob with status := .completed, assetUrls := some ["y.glb"],
                           meta := none, updatedAt := 6 } ∧
     ((JobService.failJob dbProc 6 "j1" "boom").jobs "j1").map
         (fun j2 => (j2.status, j2.assetUrls)) = some (.failed, none) ∧
     ((WebhookService.failJob dbProc 6 "j1" "boom").jobs "j1").map
         (fun j2 => (j2.status, j2.assetUrls)) = some (.failed, none)) :=
  assetUrls_written_only_by_completion (fun _ => "SIM") id (dbFresh 10) 3
    "jb" meshReq (newJobRec (fun _ => "SIM") 3 "jb" meshReq 5) dbProc 6 "j1"
    "pp" "boom"
    { id := "pj1", status := .completed,
      result := some { assetUrls := ["x.glb"], meta := none }, error := none }
    ["y.glb"] none procJob rfl (by decide)

/-- C9 counterexample.  JobService.createJob runs the credit deduction and
the job insertion as two SEPARATE transactions: on a concrete successful
run, the state after the deduction transaction commits (index 2 of the
await-boundary trace) already has the cost deducted (5 → 0) while no job
row exists yet, and only the final state (index 3) contains the queued
job.  This refutes "no intermediate state is observable in which the
user's credits have been deducted but no corresponding job record
exists". -/
theorem createJob_intermediate_deducted_no_job :
    (((JobService.createJobStates (fun _ => "SIM") (dbFresh 5) 5 "j1"
          meshReq).get? 2).map
        (fun d => ((d.users "u1").map UserRec.credits, d.jobs "j1"))
      = some (some 0, none)) ∧
    (((JobService.createJobStates (fun _ => "SIM") (dbFresh 5) 5 "j1"
          meshReq).get? 3).map
        (fun d => ((d.users "u1").map UserRec.credits,
                   (d.jobs "j1").map JobRec.status))
      = some (some 0, some .queued)) := by
  decide

/-- C9 amended.  On a successful creation, the deduction and the insertion
are two atomic transactions run in sequence: the await-boundary trace is
exactly entry state, post-rate-check state, post-deduction state and final
state; in the post-deduction state the cost is already deducted while the
job row does not exist yet; the job row appears (status queued) only in
the final state. -/
theorem createJob_two_transactions (providerOf : Tool → String) (db : DB)
    (now : Nat) (jobId uid sid : String) (tool : Tool)
    (prompt : String) (inputs : Option (List (String × String)))
    (u : UserRec) (hu : db.users uid = some u)
    (hread : checkCredits db uid tool = true)
    (hrate : (checkRateLimit db now uid sid tool).2 = true)
    (hcost : toolCosts tool ≤ u.credits)
    (hfresh : db.jobs jobId = none) :
    (createJobStates providerOf db now jobId ⟨tool, prompt, inputs, uid, sid⟩
      = [db, (checkRateLimit db now uid sid tool).1,
         (deductCreditsTxn (checkRateLimit db now uid sid tool).1 uid
            (toolCosts tool)).1,
         (createJob providerOf db now jobId
            ⟨tool, prompt, inputs, uid, sid⟩).1]) ∧
    (((deductCreditsTxn (checkRateLimit db now uid sid tool).1 uid
          (toolCosts tool)).1.users uid).map UserRec.credits
      = some (u.credits - toolCosts tool)) ∧
    ((deductCreditsTxn (checkRateLimit db now uid sid tool).1 uid
        (toolCosts tool)).1.jobs jobId = none) ∧
    ((createJob providerOf db now jobId ⟨tool, prompt, inputs, uid, sid⟩).2
      = .ok (newJobRec providerOf now jobId ⟨tool, prompt, inputs, uid, sid⟩
              (toolCosts tool))) ∧
    ((createJob providerOf db now jobId ⟨tool, prompt, inputs, uid, sid⟩).1.jobs
        jobId
      = some (newJobRec providerOf now jobId ⟨tool, prompt, inputs, uid, sid⟩
              (toolCosts tool))) := by
  have hu1 : (checkRateLimit db now uid sid tool).1.users uid = some u := by
    rw [checkRateLimit_users]; exact hu
  have hj1 : (checkRateLimit db now uid sid tool).1.jobs jobId = none := by
    rw [checkRateLimit_jobs]; exact hfresh
  have hnlt : ¬(u.credits < toolCosts tool) := not_lt.mpr hcost
  have hded : deductCreditsTxn (checkRateLimit db now uid sid tool).1 uid
      (toolCosts tool) =
      ({ (checkRateLimit db now uid sid tool).1 with
          users := updMap (checkRateLimit db now uid sid tool).1.users uid
            (deductBy (toolCosts tool)) },
        none) := by
    unfold deductCreditsTxn
    rw [hu1]
    simp [hnlt]
  refine ⟨?_, ?_, ?_, ?_, ?_⟩
  · unfold createJobStates createJob createJobWith
    dsimp only
    rw [hread, hrate]
    simp [hded]
  · rw [hded]
    dsimp only
    rw [updMap_same, hu1]
    rfl
  · rw [hded]
    exact hj1
  · unfold createJob createJobWith
    dsimp only
    rw [hread, hrate]
    simp [hded]
    rfl
  · unfold createJob createJobWith
    dsimp only
    rw [hread, hrate]
    simp [hded]
    unfold insertJobTxn
    dsimp only
    split
    · dsimp only
      rw [setMap_same]
    · dsimp only
      rw [setMap_same]

/-- Witness for the C9 amended theorem at a concrete store and request. -/
theorem createJob_two_transactions_witness :
    (createJobStates (fun _ => "SIM") (dbFresh 20) 5 "j9"
      ⟨.text2mesh, "a chair", none, "u1", "s1"⟩
      = [dbFresh 20, (checkRateLimit (dbFresh 20) 5 "u1" "s1" .text2mesh).1,
         (deductCreditsTxn (checkRateLimit (dbFresh 20) 5 "u1" "s1"
            .text2mesh).1 "u1" (toolCosts .text2mesh)).1,
         (createJob (fun _ => "SIM") (dbFresh 20) 5 "j9"
            ⟨.text2mesh, "a chair", none, "u1", "s1"⟩).1]) ∧
    (((deductCreditsTxn (checkRateLimit (dbFresh 20) 5 "u1" "s1"
          .text2mesh).1 "u1" (toolCosts .text2mesh)).1.users "u1").map
        UserRec.credits = some ((demoUser 20).credits - toolCosts .text2mesh)) ∧
    ((deductCreditsTxn (checkRateLimit (dbFresh 20) 5 "u1" "s1"
        .text2mesh).1 "u1" (toolCosts .text2mesh)).1.jobs "j9" = none) ∧
    ((createJob (fun _ => "SIM") (dbFresh 20) 5 "j9"
        ⟨.text2mesh, "a chair", none, "u1", "s1"⟩).2
      = .ok (newJobRec (fun _ => "SIM") 5 "j9"
              ⟨.text2mesh, "a chair", none, "u1", "s1"⟩
              (toolCosts .text2mesh))) ∧
    ((createJob (fun _ => "SIM") (dbFresh 20) 5 "j9"
        ⟨.text2mesh, "a chair", none, "u1", "s1"⟩).1.jobs "j9"
      = some (newJobRec (fun _ => "SIM") 5 "j9"
              ⟨.text2mesh, "a chair", none, "u1", "s1"⟩
              (toolCosts .text2mesh))) :=
  createJob_two_transactions (fun _ => "SIM") (dbFresh 20) 5 "j9" "u1" "s1"
    .text2mesh "a chair" none (demoUser 20) (by decide) (by decide)
    (by decide) (by decide) (by decide)

end Studio

namespace Studio

open JobService WebhookService

/-- C4.  With a valid tool and non-empty prompt, after the read-check and
the rate-limit check pass, the atomic re-check decides: if the balance at
the re-check (after any interleaved spending) still covers the cost, the
call returns the created job and exactly the cost is deducted
synchronously, leaving a non-negative balance; if the balance at the
re-check is below the cost, the call fails with "Insufficient credits"
(mapped to HTTP 402 by the route) and leaves the store exactly as it was
at the re-check — the balance is unchanged by the failed call. -/
theorem createJob_atomic_recheck (providerOf : Tool → String)
    (interfere : DB → DB) (db : DB) (now : Nat) (jobId : String)
    (tool : Tool) (prompt : String)
    (inputs : Option (List (String × String))) (uid sid : String)
    (u : UserRec) (hprompt : prompt ≠ "")
    (hread : checkCredits db uid tool = true)
    (hrate : (checkRateLimit db now uid sid tool).2 = true)
    (hu : (interfere (checkRateLimit db now uid sid tool).1).users uid
      = some u) :
    (let r := createJobWith providerOf interfere db now jobId
        ⟨tool, prompt, inputs, uid, sid⟩
     (toolCosts tool ≤ u.credits →
        r.2 = .ok (newJobRec providerOf now jobId
                ⟨tool, prompt, inputs, uid, sid⟩ (toolCosts tool)) ∧
        (newJobRec providerOf now jobId ⟨tool, prompt, inputs, uid, sid⟩
            (toolCosts tool)).creditsUsed = toolCosts tool ∧
        (r.1.users uid).map UserRec.credits =
          some (u.credits - toolCosts tool) ∧
        0 ≤ u.credits - toolCosts tool) ∧
     (u.credits < toolCosts tool →
        r.2 = .error "Insufficient credits" ∧
        createJobErrorStatus "Insufficient credits" = 402 ∧
        r.1 = interfere (checkRateLimit db now uid sid tool).1)) := by
  refine ⟨fun h => ?_, fun h => ?_⟩
  · have hded : deductCreditsTxn
        (interfere (checkRateLimit db now uid sid tool).1) uid
        (toolCosts tool) =
        ({ interfere (checkRateLimit db now uid sid tool).1 with
            users := updMap
              (interfere (checkRateLimit db now uid sid tool).1).users uid
              (deductBy (toolCosts tool)) },
          none) := by
      unfold deductCreditsTxn
      rw [hu]
      simp [not_lt.mpr h]
    refine ⟨?_, rfl, ?_, by omega⟩
    · unfold createJobWith
      dsimp only
      rw [hread, hrate]
      simp [hded]
      rfl
    · unfold createJobWith
      dsimp only
      rw [hread, hrate]
      simp [hded]
      unfold insertJobTxn
      dsimp only
      split
      · dsimp only
        rw [updMap_same, hu]
        simp [deductBy]
      · dsimp only
        rw [updMap_same, hu]
        simp [deductBy]
  · have hded : deductCreditsTxn
        (interfere (checkRateLimit db now uid sid tool).1) uid
        (toolCosts tool) =
        (interfere (checkRateLimit db now uid sid tool).1,
          some "Insufficient credits") := by
      unfold deductCreditsTxn
      rw [hu]
      simp [h]
    refine ⟨?_, by decide, ?_⟩
    · unfold createJobWith
      dsimp only
      rw [hread, hrate]
      simp [hded]
    · unfold createJobWith
      dsimp only
      rw [hread, hrate]
      simp [hded]

/-- Witness for C4: demo user with 10 credits passes the read check for
text2mesh (cost 5); a concurrent drain to 0 credits between the checks
and the deduction transaction makes the atomic re-check fail. -/
theorem createJob_atomic_recheck_witness :
    (let r := createJobWith (fun _ => "SIM") drainU1 (dbFresh 10) 5 "j4"
        ⟨.text2mesh, "a chair", none, "u1", "s1"⟩
     (toolCosts .text2mesh ≤ (demoUser 0).credits →
        r.2 = .ok (newJobRec (fun _ => "SIM") 5 "j4"
                ⟨.text2mesh, "a chair", none, "u1", "s1"⟩
                (toolCosts .text2mesh)) ∧
        (newJobRec (fun _ => "SIM") 5 "j4"
            ⟨.text2mesh, "a chair", none, "u1", "s1"⟩
            (toolCosts .text2mesh)).creditsUsed = toolCosts .text2mesh ∧
        (r.1.users "u1").map UserRec.credits =
          some ((demoUser 0).credits - toolCosts .text2mesh) ∧
        0 ≤ (demoUser 0).credits - toolCosts .text2mesh) ∧
     ((demoUser 0).credits < toolCosts .text2mesh →
        r.2 = .error "Insufficient credits" ∧
        createJobErrorStatus "Insufficient credits" = 402 ∧
        r.1 = drainU1 (checkRateLimit (dbFresh 10) 5 "u1" "s1" .text2mesh).1)) :=
  createJob_atomic_recheck (fun _ => "SIM") drainU1 (dbFresh 10) 5 "j4"
    .text2mesh "a chair" none "u1" "s1" (demoUser 0) (by decide) (by decide)
    (by decide) (by decide)

end Studio

namespace Studio

open JobService WebhookService

/-- C10.  For a heavy tool whose session either does not exist or has an
absent or stale (over one hour old) last-heavy-job stamp, the rate-limit
check itself — which createJob runs before any credit is deducted —
already mutates session state: it leaves the session row at the key with
heavyJobsThisHour reset to 0 and lastHeavyJobAt stamped to now, while
users, jobs and every other session row are untouched; consequently a
heavy createJob whose atomic credit re-check then fails (because a
concurrent task drained the balance) still returns with the session
window restarted. -/
theorem checkRateLimit_restarts_window (providerOf : Tool → String)
    (drain : DB → DB) (db : DB) (now : Nat) (jobId uid sid : String)
    (tool : Tool) (prompt : String)
    (inputs : Option (List (String × String)))
    (ht : tool ∈ heavyJobs)
    (hid : ∀ s, db.sessions sid = some s → s.id = sid)
    (hsu : ∀ s, db.sessions sid = some s → s.userId = uid)
    (hstale : ∀ s, db.sessions sid = some s →
        staleStamp s ((now : Int) - oneHourMs) = true)
    (hread : checkCredits db uid tool = true)
    (hdrainSess : ∀ d, (drain d).sessions = d.sessions)
    (u2 : UserRec)
    (hu2 : (drain (checkRateLimit db now uid sid tool).1).users uid = some u2)
    (hlow : u2.credits < toolCosts tool) :
    (checkRateLimit db now uid sid tool).2 = true ∧
    (checkRateLimit db now uid sid tool).1.sessions sid =
      some { id := sid, userId := uid, heavyJobsThisHour := 0,
             lastHeavyJobAt := some now } ∧
    (checkRateLimit db now uid sid tool).1.users = db.users ∧
    (checkRateLimit db now uid sid tool).1.jobs = db.jobs ∧
    (∀ k, k ≠ sid →
      (checkRateLimit db now uid sid tool).1.sessions k = db.sessions k) ∧
    (let r := createJobWith providerOf drain db now jobId
        ⟨tool, prompt, inputs, uid, sid⟩
     r.2 = .error "Insufficient credits" ∧
     r.1.sessions sid =
       some { id := sid, userId := uid, heavyJobsThisHour := 0,
              lastHeavyJobAt := some now }) := by
  have hmain : checkRateLimit db now uid sid tool =
      ({ (getOrCreateSession db uid sid).1 with
          sessions := updMap (getOrCreateSession db uid sid).1.sessions sid (resetCounter now) }, true) := by
    unfold checkRateLimit
    rw [if_neg (by simpa using ht)]
    dsimp only
    have hstale2 : staleStamp (getOrCreateSession db uid sid).2
        ((now : Int) - oneHourMs) = true := by
      unfold getOrCreateSession sessionLookup
      cases hdb : db.sessions sid with
      | none => rfl
      | some s =>
          dsimp only
          rw [if_pos (hsu s hdb)]
          exact hstale s hdb
    rw [if_pos hstale2]
  have hsess : (checkRateLimit db now uid sid tool).1.sessions sid =
      some { id := sid, userId := uid, heavyJobsThisHour := 0,
             lastHeavyJobAt := some now } := by
    rw [hmain]
    dsimp only
    rw [updMap_same]
    unfold getOrCreateSession sessionLookup
    cases hdb : db.sessions sid with
    | none =>
        dsimp only
        rw [setMap_same]
        simp [resetCounter]
    | some s =>
        dsimp only
        rw [if_pos (hsu s hdb)]
        dsimp only
        rw [hdb]
        simp [resetCounter, hid s hdb, hsu s hdb]
  have hrl2 : (checkRateLimit db now uid sid tool).2 = true := by
    rw [hmain]
  have hded : deductCreditsTxn
      (drain (checkRateLimit db now uid sid tool).1) uid (toolCosts tool) =
      (drain (checkRateLimit db now uid sid tool).1,
        some "Insufficient credits") := by
    unfold deductCreditsTxn
    rw [hu2]
    simp [hlow]
  refine ⟨hrl2, hsess, checkRateLimit_users db now uid sid tool,
    checkRateLimit_jobs db now uid sid tool, ?_, ?_, ?_⟩
  · intro k hk
    rw [hmain]
    dsimp only
    rw [updMap_other _ _ _ _ hk]
    unfold getOrCreateSession sessionLookup
    cases hdb : db.sessions sid with
    | none =>
        dsimp only
        rw [setMap_other _ _ _ _ hk]
    | some s =>
        dsimp only
        rw [if_pos (hsu s hdb)]
  · unfold createJobWith
    dsimp only
    rw [hread, hrl2]
    simp [hded]
  · unfold createJobWith
    dsimp only
    rw [hread, hrl2]
    simp [hded]
    rw [hdrainSess]
    exact hsess

/-- Witness for C10: fresh session, demo user with 10 credits, heavy tool
text2mesh, drain to zero; the rate check stamps the window and the failed
creation leaves it stamped. -/
theorem checkRateLimit_restarts_window_witness :
    (checkRateLimit (dbFresh 10) 7 "u1" "s1" .text2mesh).2 = true ∧
    (checkRateLimit (dbFresh 10) 7 "u1" "s1" .text2mesh).1.sessions "s1" =
      some { id := "s1", userId := "u1", heavyJobsThisHour := 0,
             lastHeavyJobAt := some 7 } ∧
    (checkRateLimit (dbFresh 10) 7 "u1" "s1" .text2mesh).1.users =
      (dbFresh 10).users ∧
    (checkRateLimit (dbFresh 10) 7 "u1" "s1" .text2mesh).1.jobs =
      (dbFresh 10).jobs ∧
    (∀ k, k ≠ "s1" →
      (checkRateLimit (dbFresh 10) 7 "u1" "s1" .text2mesh).1.sessions k =
        (dbFresh 10).sessions k) ∧
    (let r := createJobWith (fun _ => "SIM") drainU1 (dbFresh 10) 7 "jx"
        ⟨.text2mesh, "a chair", none, "u1", "s1"⟩
     r.2 = .error "Insufficient credits" ∧
     r.1.sessions "s1" =
       some { id := "s1", userId := "u1", heavyJobsThisHour := 0,
              lastHeavyJobAt := some 7 }) :=
  checkRateLimit_restarts_window (fun _ => "SIM") drainU1 (dbFresh 10) 7
    "jx" "u1" "s1" .text2mesh "a chair" none (by decide)
    (by intro s hs; cases hs) (by intro s hs; cases hs)
    (by intro s hs; cases hs) (by decide) (fun d => rfl) (demoUser 0)
    (by decide) (by decide)

end Studio

namespace Studio

open JobService WebhookService

/-! ### Lookup lemmas for the failure transition -/

theorem failJob_jobs_lookup (db : DB) (now : Nat) (jobId e : String)
    (j : JobRec) (hj : db.jobs jobId = some j) :
    (JobService.failJob db now jobId e).jobs jobId =
      some { j with status := .failed, meta := some (.errObj e),
                    updatedAt := now } := by
  unfold JobService.failJob
  rw [hj]
  dsimp only
  split
  · dsimp only
    rw [updMap_same, hj]
    rfl
  · rw [updMap_same, hj]
    rfl

theorem failJob_refund (db : DB) (now : Nat) (jobId e : String)
    (j : JobRec) (u : UserRec) (hj : db.jobs jobId = some j)
    (hu : db.users j.userId = some u) :
    (JobService.failJob db now jobId e).users j.userId =
      some { u with credits := u.credits + j.creditsUsed } := by
  unfold JobService.failJob
  rw [hj]
  dsimp only
  rw [hu]
  dsimp only
  rw [updMap_same, hu]
  rfl

/-- The poll loop under a provider that never reports a terminal status:
with the attempt counter invariant `attempts + fuel = maxAttempts`, the
loop runs its budget down and ends by failing the job with
"Job timed out", making exactly `fuel` more getJobStatus calls. -/
theorem pollAux_timeout (g : Nat → ProviderJobRec) (now : Nat)
    (jobId : String) (j : JobRec)
    (hnt : ∀ n, 1 ≤ n → n ≤ maxAttempts →
      (g n).status ≠ .completed ∧ (g n).status ≠ .failed) :
    ∀ fuel attempts db, attempts + fuel = maxAttempts → 1 ≤ fuel →
      db.jobs jobId = some j →
      pollAux g now jobId fuel attempts db =
        (JobService.failJob db now jobId "Job timed out", fuel) := by
  intro fuel
  induction fuel with
  | zero => intro attempts db h h1 hj; omega
  | succ f ih =>
      intro attempts db h h1 hj
      have hn1 : 1 ≤ attempts + 1 := by omega
      have hn60 : attempts + 1 ≤ maxAttempts := by omega
      obtain ⟨hc, hf⟩ := hnt (attempts + 1) hn1 hn60
      simp only [pollAux]
      rw [hj]
      dsimp only
      rw [if_neg hc, if_neg hf]
      rcases Nat.eq_zero_or_pos f with hf0 | hfpos
      · subst hf0
        have hlt : ¬(attempts + 1 < maxAttempts) := by omega
        rw [if_neg hlt]
      · have hlt : attempts + 1 < maxAttempts := by omega
        rw [if_pos hlt]
        rw [ih (attempts + 1) db (by omega) hfpos hj]

/-- C7.  For a dispatched job whose provider never reports a terminal
status within the attempt budget, JobService.pollJobStatus makes exactly
maxAttempts = 60 getJobStatus calls (so at most 60), then transitions the
job to the terminal failed state with the "Job timed out" error stored in
meta and refunds the job's creditsUsed to its owner: polling terminates
with the job terminal after finitely many attempts. -/
theorem pollJobStatus_times_out (g : Nat → ProviderJobRec) (db : DB)
    (now : Nat) (jobId : String) (j : JobRec) (u : UserRec)
    (hj : db.jobs jobId = some j) (hu : db.users j.userId = some u)
    (hnt : ∀ n, 1 ≤ n → n ≤ maxAttempts →
      (g n).status ≠ .completed ∧ (g n).status ≠ .failed) :
    pollJobStatus g db now jobId =
      (JobService.failJob db now jobId "Job timed out", maxAttempts) ∧
    (pollJobStatus g db now jobId).2 ≤ maxAttempts ∧
    (pollJobStatus g db now jobId).1.jobs jobId =
      some { j with status := .failed, meta := some (.errObj "Job timed out"),
                    updatedAt := now } ∧
    (pollJobStatus g db now jobId).1.users j.userId =
      some { u with credits := u.credits + j.creditsUsed } := by
  have heq : pollJobStatus g db now jobId =
      (JobService.failJob db now jobId "Job timed out", maxAttempts) := by
    unfold pollJobStatus
    exact pollAux_timeout g now jobId j hnt maxAttempts 0 db (by omega)
      (by decide) hj
  refine ⟨heq, ?_, ?_, ?_⟩
  · rw [heq]
  · rw [heq]
    exact failJob_jobs_lookup db now jobId "Job timed out" j hj
  · rw [heq]
    exact failJob_refund db now jobId "Job timed out" j u hj hu

/-- Witness for C7: the fixture processing job polled against a provider
that always answers processing. -/
theorem pollJobStatus_times_out_witness :
    pollJobStatus alwaysProcessing dbProc 11 "j1" =
      (JobService.failJob dbProc 11 "j1" "Job timed out", maxAttempts) ∧
    (pollJobStatus alwaysProcessing dbProc 11 "j1").2 ≤ maxAttempts ∧
    (pollJobStatus alwaysProcessing dbProc 11 "j1").1.jobs "j1" =
      some { procJob with status := .failed,
                          meta := some (.errObj "Job timed out"),
                          updatedAt := 11 } ∧
    (pollJobStatus alwaysProcessing dbProc 11 "j1").1.users
        procJob.userId =
      some { demoUser 10 with
              credits := (demoUser 10).credits + procJob.creditsUsed } :=
  pollJobStatus_times_out alwaysProcessing dbProc 11 "j1" procJob (demoUser 10)
    (by decide) (by decide) (by intro n h1 h2; simp [alwaysProcessing])

end Studio

namespace Studio

open JobService WebhookService

/-! ### Helper lemmas for heavy-job creation, used for the rolling-hour
rate-limit analysis -/

theorem toolCosts_pos (tool : Tool) : 1 ≤ toolCosts tool := by
  cases tool <;> decide

theorem checkRateLimit_light (db : DB) (now : Nat) (uid sid : String) :
    checkRateLimit db now uid sid .text2image = (db, true) := by
  unfold checkRateLimit
  rw [if_pos (by decide)]

theorem checkRateLimit_of_found (db : DB) (now : Nat) (uid sid : String)
    (tool : Tool) (s : SessionRec) (ht : tool ∈ heavyJobs)
    (hs : db.sessions sid = some s) (hsu : s.userId = uid) :
    checkRateLimit db now uid sid tool =
      (if staleStamp s ((now : Int) - oneHourMs) then
        ({ db with sessions := updMap db.sessions sid (resetCounter now) }, true)
      else (db, decide (s.heavyJobsThisHour < 5))) := by
  have hgot : getOrCreateSession db uid sid = (db, s) := by
    unfold getOrCreateSession sessionLookup
    rw [hs]
    dsimp only
    rw [if_pos hsu]
  unfold checkRateLimit
  rw [if_neg (not_not_intro ht)]
  dsimp only
  rw [hgot]

theorem checkRateLimit_of_fresh (db : DB) (now : Nat) (uid sid : String)
    (tool : Tool) (ht : tool ∈ heavyJobs) (hs : db.sessions sid = none) :
    checkRateLimit db now uid sid tool =
      ({ db with sessions := updMap (setMap db.sessions sid ⟨sid, uid, 0, none⟩) sid (resetCounter now) }, true) := by
  have hgot : getOrCreateSession db uid sid =
      ({ db with sessions := setMap db.sessions sid ⟨sid, uid, 0, none⟩ },
        ⟨sid, uid, 0, none⟩) := by
    unfold getOrCreateSession sessionLookup
    rw [hs]
  unfold checkRateLimit
  rw [if_neg (not_not_intro ht)]
  dsimp only
  rw [hgot]
  rfl

theorem insertJobTxn_facts (providerOf : Tool → String) (db : DB)
    (now : Nat) (jobId : String) (req : CreateJobRequest) (cost : Int)
    (s2 : SessionRec) (ht : req.tool ∈ heavyJobs)
    (hs2 : db.sessions req.sessionId = some s2)
    (hsu2 : s2.userId = req.userId) :
    (insertJobTxn providerOf db now jobId req cost).2 =
      newJobRec providerOf now jobId req cost ∧
    (insertJobTxn providerOf db now jobId req cost).1.users = db.users ∧
    (insertJobTxn providerOf db now jobId req cost).1.sessions
        req.sessionId =
      some { s2 with heavyJobsThisHour := s2.heavyJobsThisHour + 1,
                     lastHeavyJobAt := some now } ∧
    (insertJobTxn providerOf db now jobId req cost).1.jobs =
      setMap db.jobs jobId (newJobRec providerOf now jobId req cost) := by
  unfold insertJobTxn
  dsimp only
  rw [if_pos ht]
  refine ⟨rfl, rfl, ?_, rfl⟩
  simp [bumpSession, hs2, hsu2]

theorem createJob_ok_eq (providerOf : Tool → String) (db dbR : DB)
    (now : Nat) (jobId : String) (req : CreateJobRequest) (u : UserRec)
    (hread : checkCredits db req.userId req.tool = true)
    (hrl : checkRateLimit db now req.userId req.sessionId req.tool =
      (dbR, true))
    (hu : dbR.users req.userId = some u)
    (hcred : toolCosts req.tool ≤ u.credits) :
    createJob providerOf db now jobId req =
      ((insertJobTxn providerOf
          { dbR with users := updMap dbR.users req.userId (deductBy (toolCosts req.tool)) }
          now jobId req (toolCosts req.tool)).1,
        .ok (insertJobTxn providerOf
          { dbR with users := updMap dbR.users req.userId (deductBy (toolCosts req.tool)) }
          now jobId req (toolCosts req.tool)).2) := by
  have hded : deductCreditsTxn dbR req.userId (toolCosts req.tool) =
      ({ dbR with users := updMap dbR.users req.userId (deductBy (toolCosts req.tool)) },
        none) := by
    unfold deductCreditsTxn
    rw [hu]
    simp [not_lt.mpr hcred]
  unfold createJob createJobWith
  dsimp only
  rw [hread, hrl]
  simp [hded]

end Studio

namespace Studio

open JobService WebhookService

theorem checkCredits_of_user (db : DB) (uid : String) (tool : Tool)
    (u : UserRec) (hu : db.users uid = some u)
    (hcred : toolCosts tool ≤ u.credits) :
    checkCredits db uid tool = true := by
  unfold checkCredits
  rw [hu]
  simp [hcred]

theorem createJob_heavy_window_step (providerOf : Tool → String) (db : DB)
    (now : Nat) (jobId uid sid : String) (tool : Tool) (prompt : String)
    (inputs : Option (List (String × String))) (u : UserRec)
    (s : SessionRec) (tprev : Nat) (ht : tool ∈ heavyJobs)
    (hu : db.users uid = some u) (hcred : toolCosts tool ≤ u.credits)
    (hs : db.sessions sid = some s) (hsu : s.userId = uid)
    (hlast : s.lastHeavyJobAt = some tprev)
    (hwin : ¬((tprev : Int) < (now : Int) - oneHourMs))
    (hcount : s.heavyJobsThisHour < 5) :
    (createJob providerOf db now jobId ⟨tool, prompt, inputs, uid, sid⟩).2 =
      .ok (newJobRec providerOf now jobId ⟨tool, prompt, inputs, uid, sid⟩
            (toolCosts tool)) ∧
    (createJob providerOf db now jobId
        ⟨tool, prompt, inputs, uid, sid⟩).1.users uid =
      some (deductBy (toolCosts tool) u) ∧
    (createJob providerOf db now jobId
        ⟨tool, prompt, inputs, uid, sid⟩).1.sessions sid =
      some { s with heavyJobsThisHour := s.heavyJobsThisHour + 1,
                    lastHeavyJobAt := some now } := by
  have hread := checkCredits_of_user db uid tool u hu hcred
  have hrl : checkRateLimit db now uid sid tool = (db, true) := by
    rw [checkRateLimit_of_found db now uid sid tool s ht hs hsu]
    have hstale : staleStamp s ((now : Int) - oneHourMs) = false := by
      unfold staleStamp
      rw [hlast]
      simp [hwin]
    rw [hstale]
    simp [hcount]
  have hcore := createJob_ok_eq providerOf db db now jobId
    ⟨tool, prompt, inputs, uid, sid⟩ u hread hrl hu hcred
  obtain ⟨hins2, hinsU, hinsS, hinsJ⟩ := insertJobTxn_facts providerOf
    { db with users := updMap db.users uid (deductBy (toolCosts tool)) }
    now jobId ⟨tool, prompt, inputs, uid, sid⟩ (toolCosts tool) s ht hs hsu
  refine ⟨?_, ?_, ?_⟩
  · rw [hcore]
    dsimp only
    rw [hins2]
  · rw [hcore]
    dsimp only
    rw [congrFun hinsU uid]
    dsimp only
    rw [updMap_same, hu]
    rfl
  · rw [hcore]
    dsimp only
    exact hinsS

theorem createJob_heavy_fresh_step (providerOf : Tool → String) (db : DB)
    (now : Nat) (jobId uid sid : String) (tool : Tool) (prompt : String)
    (inputs : Option (List (String × String))) (u : UserRec)
    (ht : tool ∈ heavyJobs)
    (hu : db.users uid = some u) (hcred : toolCosts tool ≤ u.credits)
    (hs : db.sessions sid = none) :
    (createJob providerOf db now jobId ⟨tool, prompt, inputs, uid, sid⟩).2 =
      .ok (newJobRec providerOf now jobId ⟨tool, prompt, inputs, uid, sid⟩
            (toolCosts tool)) ∧
    (createJob providerOf db now jobId
        ⟨tool, prompt, inputs, uid, sid⟩).1.users uid =
      some (deductBy (toolCosts tool) u) ∧
    (createJob providerOf db now jobId
        ⟨tool, prompt, inputs, uid, sid⟩).1.sessions sid =
      some { id := sid, userId := uid, heavyJobsThisHour := 1,
             lastHeavyJobAt := some now } := by
  have hread := checkCredits_of_user db uid tool u hu hcred
  have hrl := checkRateLimit_of_fresh db now uid sid tool ht hs
  have hsR : ({ db with sessions := updMap (setMap db.sessions sid ⟨sid, uid, 0, none⟩) sid (resetCounter now) }).sessions sid =
      some { id := sid, userId := uid, heavyJobsThisHour := 0,
             lastHeavyJobAt := some now } := by
    dsimp only
    rw [updMap_same, setMap_same]
    rfl
  have huR : ({ db with sessions := updMap (setMap db.sessions sid ⟨sid, uid, 0, none⟩) sid (resetCounter now) }).users uid = some u := hu
  have hcore := createJob_ok_eq providerOf db
    { db with sessions := updMap (setMap db.sessions sid ⟨sid, uid, 0, none⟩) sid (resetCounter now) }
    now jobId ⟨tool, prompt, inputs, uid, sid⟩ u hread hrl huR hcred
  obtain ⟨hins2, hinsU, hinsS, hinsJ⟩ := insertJobTxn_facts providerOf
    { { db with sessions := updMap (setMap db.sessions sid ⟨sid, uid, 0, none⟩) sid (resetCounter now) } with users := updMap db.users uid (deductBy (toolCosts tool)) }
    now jobId ⟨tool, prompt, inputs, uid, sid⟩ (toolCosts tool)
    { id := sid, userId := uid, heavyJobsThisHour := 0,
      lastHeavyJobAt := some now }
    ht hsR rfl
  refine ⟨?_, ?_, ?_⟩
  · rw [hcore]
    dsimp only
    rw [hins2]
  · rw [hcore]
    dsimp only
    rw [congrFun hinsU uid]
    dsimp only
    rw [updMap_same, hu]
    rfl
  · rw [hcore]
    dsimp only
    rw [hinsS]

theorem createJob_heavy_stale_step (providerOf : Tool → String) (db : DB)
    (now : Nat) (jobId uid sid : String) (tool : Tool) (prompt : String)
    (inputs : Option (List (String × String))) (u : UserRec)
    (s : SessionRec) (ht : tool ∈ heavyJobs)
    (hu : db.users uid = some u) (hcred : toolCosts tool ≤ u.credits)
    (hs : db.sessions sid = some s) (hsu : s.userId = uid)
    (hstale : staleStamp s ((now : Int) - oneHourMs) = true) :
    (createJob providerOf db now jobId ⟨tool, prompt, inputs, uid, sid⟩).2 =
      .ok (newJobRec providerOf now jobId ⟨tool, prompt, inputs, uid, sid⟩
            (toolCosts tool)) ∧
    (createJob providerOf db now jobId
        ⟨tool, prompt, inputs, uid, sid⟩).1.users uid =
      some (deductBy (toolCosts tool) u) ∧
    (createJob providerOf db now jobId
        ⟨tool, prompt, inputs, uid, sid⟩).1.sessions sid =
      some { s with heavyJobsThisHour := 1, lastHeavyJobAt := some now } := by
  have hread := checkCredits_of_user db uid tool u hu hcred
  have hrl : checkRateLimit db now uid sid tool =
      ({ db with sessions := updMap db.sessions sid (resetCounter now) },
        true) := by
    rw [checkRateLimit_of_found db now uid sid tool s ht hs hsu]
    rw [hstale]
    simp
  have hsR : ({ db with sessions := updMap db.sessions sid (resetCounter now) }).sessions sid = some (resetCounter now s) := by
    dsimp only
    rw [updMap_same, hs]
    rfl
  have huR : ({ db with sessions := updMap db.sessions sid (resetCounter now) }).users uid = some u := hu
  have hcore := createJob_ok_eq providerOf db
    { db with sessions := updMap db.sessions sid (resetCounter now) }
    now jobId ⟨tool, prompt, inputs, uid, sid⟩ u hread hrl huR hcred
  obtain ⟨hins2, hinsU, hinsS, hinsJ⟩ := insertJobTxn_facts providerOf
    { { db with sessions := updMap db.sessions sid (resetCounter now) } with users := updMap db.users uid (deductBy (toolCosts tool)) }
    now jobId ⟨tool, prompt, inputs, uid, sid⟩ (toolCosts tool)
    (resetCounter now s) ht hsR hsu
  refine ⟨?_, ?_, ?_⟩
  · rw [hcore]
    dsimp only
    rw [hins2]
  · rw [hcore]
    dsimp only
    rw [congrFun hinsU uid]
    dsimp only
    rw [updMap_same, hu]
    rfl
  · rw [hcore]
    dsimp only
    rw [hinsS]
    simp [resetCounter]

theorem createJob_heavy_limited_step (providerOf : Tool → String) (db : DB)
    (now : Nat) (jobId uid sid : String) (tool : Tool) (prompt : String)
    (inputs : Option (List (String × String))) (u : UserRec)
    (s : SessionRec) (tprev : Nat) (ht : tool ∈ heavyJobs)
    (hu : db.users uid = some u) (hcred : toolCosts tool ≤ u.credits)
    (hs : db.sessions sid = some s) (hsu : s.userId = uid)
    (hlast : s.lastHeavyJobAt = some tprev)
    (hwin : ¬((tprev : Int) < (now : Int) - oneHourMs))
    (hge : ¬(s.heavyJobsThisHour < 5)) :
    createJob providerOf db now jobId ⟨tool, prompt, inputs, uid, sid⟩ =
      (db, .error "Rate limit exceeded. Maximum 5 heavy jobs per hour.") := by
  have hread := checkCredits_of_user db uid tool u hu hcred
  have hrl : checkRateLimit db now uid sid tool = (db, false) := by
    rw [checkRateLimit_of_found db now uid sid tool s ht hs hsu]
    have hstale : staleStamp s ((now : Int) - oneHourMs) = false := by
      unfold staleStamp
      rw [hlast]
      simp [hwin]
    rw [hstale]
    simp [hge]
  unfold createJob createJobWith
  dsimp only
  rw [hread, hrl]
  simp

end Studio

namespace Studio

open JobService WebhookService

theorem staleStamp_some (t : Nat) (s : SessionRec) (oneHourAgo : Int)
    (h : s.lastHeavyJobAt = some t) :
    staleStamp s oneHourAgo = decide ((t : Int) < oneHourAgo) := by
  unfold staleStamp
  rw [h]

/-- C5.  Heavy-tool rolling-hour rate limiting, for any session id, heavy
tool, and call times whose consecutive gaps stay within one hour: starting
from a fresh session and a balance covering six runs, the first five
heavy createJob calls succeed; the sixth within the window fails with
"Rate limit exceeded. Maximum 5 heavy jobs per hour." (mapped to HTTP 429
by the route) and leaves the store untouched; once the last heavy-job
stamp is more than one hour in the past the counter is reset and a
seventh heavy call succeeds.  The light tool text2image is never
rate-limited: its check always allows and leaves the store unchanged. -/
theorem heavy_rate_limit_window (providerOf : Tool → String)
    (uid sid : String) (tool : Tool) (c : Int)
    (t1 t2 t3 t4 t5 t6 t7 : Nat) (dbL : DB) (nowL : Nat) (uL sL : String)
    (ht : tool ∈ heavyJobs) (hc : 6 * toolCosts tool ≤ c)
    (hw2 : ¬((t1 : Int) < (t2 : Int) - oneHourMs))
    (hw3 : ¬((t2 : Int) < (t3 : Int) - oneHourMs))
    (hw4 : ¬((t3 : Int) < (t4 : Int) - oneHourMs))
    (hw5 : ¬((t4 : Int) < (t5 : Int) - oneHourMs))
    (hw6 : ¬((t5 : Int) < (t6 : Int) - oneHourMs))
    (hw7 : (t5 : Int) < (t7 : Int) - oneHourMs) :
    (let r1 := createJob providerOf (dbSolo uid c) t1 "jb1" ⟨tool, "p", none, uid, sid⟩
     let r2 := createJob providerOf r1.1 t2 "jb2" ⟨tool, "p", none, uid, sid⟩
     let r3 := createJob providerOf r2.1 t3 "jb3" ⟨tool, "p", none, uid, sid⟩
     let r4 := createJob providerOf r3.1 t4 "jb4" ⟨tool, "p", none, uid, sid⟩
     let r5 := createJob providerOf r4.1 t5 "jb5" ⟨tool, "p", none, uid, sid⟩
     let r6 := createJob providerOf r5.1 t6 "jb6" ⟨tool, "p", none, uid, sid⟩
     let r7 := createJob providerOf r6.1 t7 "jb7" ⟨tool, "p", none, uid, sid⟩
     (∃ jb, r1.2 = .ok jb) ∧ (∃ jb, r2.2 = .ok jb) ∧ (∃ jb, r3.2 = .ok jb) ∧
     (∃ jb, r4.2 = .ok jb) ∧ (∃ jb, r5.2 = .ok jb) ∧
     r6.2 = .error "Rate limit exceeded. Maximum 5 heavy jobs per hour." ∧
     r6.1 = r5.1 ∧ (∃ jb, r7.2 = .ok jb)) ∧
    createJobErrorStatus "Rate limit exceeded. Maximum 5 heavy jobs per hour."
      = 429 ∧
    checkRateLimit dbL nowL uL sL .text2image = (dbL, true) := by
  refine ⟨?_, by decide, checkRateLimit_light dbL nowL uL sL⟩
  dsimp only
  have hp := toolCosts_pos tool
  have hu0 : (dbSolo uid c).users uid = some ⟨uid, "demo", "demo", c⟩ := by
    unfold dbSolo
    simp
  have hs0 : (dbSolo uid c).sessions sid = none := rfl
  obtain ⟨h1ok, h1u, h1s⟩ := createJob_heavy_fresh_step providerOf
    (dbSolo uid c) t1 "jb1" uid sid tool "p" none ⟨uid, "demo", "demo", c⟩
    ht hu0 (by dsimp only; omega) hs0
  obtain ⟨h2ok, h2u, h2s⟩ := createJob_heavy_window_step providerOf _ t2
    "jb2" uid sid tool "p" none _ _ t1 ht h1u (by simp [deductBy]; omega)
    h1s rfl rfl hw2 (by show (1:Nat) < 5; decide)
  obtain ⟨h3ok, h3u, h3s⟩ := createJob_heavy_window_step providerOf _ t3
    "jb3" uid sid tool "p" none _ _ t2 ht h2u (by simp [deductBy]; omega)
    h2s rfl rfl hw3 (by show (2:Nat) < 5; decide)
  obtain ⟨h4ok, h4u, h4s⟩ := createJob_heavy_window_step providerOf _ t4
    "jb4" uid sid tool "p" none _ _ t3 ht h3u (by simp [deductBy]; omega)
    h3s rfl rfl hw4 (by show (3:Nat) < 5; decide)
  obtain ⟨h5ok, h5u, h5s⟩ := createJob_heavy_window_step providerOf _ t5
    "jb5" uid sid tool "p" none _ _ t4 ht h4u (by simp [deductBy]; omega)
    h4s rfl rfl hw5 (by show (4:Nat) < 5; decide)
  have h6 := createJob_heavy_limited_step providerOf _ t6 "jb6" uid sid
    tool "p" none _ _ t5 ht h5u (by simp [deductBy]; omega) h5s rfl rfl hw6
    (by show ¬((5:Nat) < 5); decide)
  refine ⟨⟨_, h1ok⟩, ⟨_, h2ok⟩, ⟨_, h3ok⟩, ⟨_, h4ok⟩, ⟨_, h5ok⟩, ?_, ?_, ?_⟩
  · rw [h6]
  · rw [h6]
  · rw [h6]
    dsimp only
    obtain ⟨h7ok, h7u, h7s⟩ := createJob_heavy_stale_step providerOf _ t7
      "jb7" uid sid tool "p" none _ _ ht h5u (by simp [deductBy]; omega)
      h5s rfl (by rw [staleStamp_some t5 _ _ rfl]; simp [hw7])
    exact ⟨_, h7ok⟩

end Studio

namespace Studio

open JobService WebhookService

/-- Witness for C5: six text2mesh creations at times 1s..6s (all within
one hour of the previous heavy job) against a 30-credit balance, then a
seventh once the hour has rolled over. -/
theorem heavy_rate_limit_window_witness :
    (let r1 := createJob (fun _ => "SIM") (dbSolo "u1" 30) 1000 "jb1" ⟨.text2mesh, "p", none, "u1", "s1"⟩
     let r2 := createJob (fun _ => "SIM") r1.1 2000 "jb2" ⟨.text2mesh, "p", none, "u1", "s1"⟩
     let r3 := createJob (fun _ => "SIM") r2.1 3000 "jb3" ⟨.text2mesh, "p", none, "u1", "s1"⟩
     let r4 := createJob (fun _ => "SIM") r3.1 4000 "jb4" ⟨.text2mesh, "p", none, "u1", "s1"⟩
     let r5 := createJob (fun _ => "SIM") r4.1 5000 "jb5" ⟨.text2mesh, "p", none, "u1", "s1"⟩
     let r6 := createJob (fun _ => "SIM") r5.1 6000 "jb6" ⟨.text2mesh, "p", none, "u1", "s1"⟩
     let r7 := createJob (fun _ => "SIM") r6.1 3605001 "jb7" ⟨.text2mesh, "p", none, "u1", "s1"⟩
     (∃ jb, r1.2 = .ok jb) ∧ (∃ jb, r2.2 = .ok jb) ∧ (∃ jb, r3.2 = .ok jb) ∧
     (∃ jb, r4.2 = .ok jb) ∧ (∃ jb, r5.2 = .ok jb) ∧
     r6.2 = .error "Rate limit exceeded. Maximum 5 heavy jobs per hour." ∧
     r6.1 = r5.1 ∧ (∃ jb, r7.2 = .ok jb)) ∧
    createJobErrorStatus "Rate limit exceeded. Maximum 5 heavy jobs per hour."
      = 429 ∧
    checkRateLimit dbProc 0 "u" "s" .text2image = (dbProc, true) :=
  heavy_rate_limit_window (fun _ => "SIM") "u1" "s1" .text2mesh 30 1000 2000
    3000 4000 5000 6000 3605001 dbProc 0 "u" "s" (by decide) (by decide)
    (by decide) (by decide) (by decide) (by decide) (by decide) (by decide)

end Studio
